import Mathlib

/-!
Verification of the chat2world conversation-flow engine.

This file embeds, in Lean, the flow scheduler (`im/flow.go`), the message
model (`im/message.go`), the posting flow (`blogging/posting.go`) and the
authorizer flow (`blogging`, in `main.go`'s package set), and proves or
refutes the behavioural claims about them.  Go maps become association
lists, Go errors become an inductive error type with `fmt.Errorf("%s: %w")`
wrapping, channels and `select` resolutions become explicit outcome
parameters, and the messenger / platform collaborators become function
parameters.
-/

set_option maxHeartbeats 1000000

namespace Chat2World

/-- Go error values as used by the engine: the sentinel errors declared in
`im/flow.go` and `im/message.go`, arbitrary opaque errors (`fmt.Errorf`
with `%v`, external failures, `errors.Join` results rendered by `%v`), and
`fmt.Errorf("...: %w", err)` wrapping. -/
inductive GoError where
  | flowFinished
  | flowTriggerConflict
  | flowAlreadyRegistered
  | notACommand
  | emptyMessage
  | custom (msg : String)
  | wrap (label : String) (inner : GoError)
deriving DecidableEq, Repr

/-- `errors.Is(e, target)`: identity at the top, then unwrap through
`%w` wrapping. -/
def errorsIs : GoError → GoError → Bool
  | .wrap l inner, t => (GoError.wrap l inner == t) || errorsIs inner t
  | e, t => e == t

/-- The string `fmt` produces for an error with `%v` (message text;
wrapped errors print `label: inner`). -/
def goErrorMsg : GoError → String
  | .flowFinished => "flow finished"
  | .flowTriggerConflict => "flow trigger conflict"
  | .flowAlreadyRegistered => "flow already registered"
  | .notACommand => "not a command"
  | .emptyMessage => "empty message"
  | .custom msg => msg
  | .wrap label inner => label ++ ": " ++ goErrorMsg inner

/-- The message `errors.Join` gives a list of errors (newline-separated),
as rendered by `%v`. -/
def goJoinMsg (errs : List GoError) : String :=
  String.intercalate "\n" (errs.map goErrorMsg)

/-- Go `strings.Split` on a single-character separator, over the
character list (split at every separator, keeping empty fields; the empty
string gives one empty field). -/
def splitListOn (sep : Char) : List Char → List (List Char)
  | [] => [[]]
  | c :: rest =>
    let r := splitListOn sep rest
    if c = sep then [] :: r
    else
      match r with
      | [] => [[c]]
      | w :: ws => (c :: w) :: ws

/-- Go `strings.Split(s, " ")`. -/
def goSplitSpace (s : String) : List String :=
  (splitListOn ' ' s.data).map (fun l => String.mk l)

/-- `strings.Split` never yields an empty slice. -/
theorem splitListOn_ne_nil (sep : Char) : ∀ l : List Char, splitListOn sep l ≠ []
  | [] => by simp [splitListOn]
  | c :: rest => by
    simp only [splitListOn]
    split
    · simp
    · split <;> simp

/-- `goSplitSpace` never yields an empty list. -/
theorem goSplitSpace_ne_nil (s : String) : goSplitSpace s ≠ [] := by
  simp [goSplitSpace, splitListOn_ne_nil]

/-- An inbound/outbound chat image (`im.Image`): raw bytes and caption. -/
structure Image where
  data : List Nat
  caption : String
deriving DecidableEq, Repr

/-- `im.Message`: the transport-agnostic chat message record. -/
structure Message where
  im : String
  chatID : Int
  userID : Nat
  msgID : Nat
  inReplyTo : Nat
  text : String
  images : List Image
deriving DecidableEq, Repr

/-- `Message.Reply`: derives an outbound message answering `m`, keeping
the routing identifiers; the new message id is the zero value. -/
def Message.Reply (m : Message) (text : String) (images : List Image) : Message :=
  { im := m.im, chatID := m.chatID, userID := m.userID, msgID := 0,
    inReplyTo := m.msgID, text := text, images := images }

/-- `Message.IsCommand`: text non-empty and starting with `/`. -/
def Message.IsCommand (m : Message) : Bool :=
  m.text.length > 0 && m.text.front == '/'

/-- `Message.IsEmpty`: no text and no images. -/
def Message.IsEmpty (m : Message) : Bool :=
  m.text == "" && m.images.isEmpty

/-- `Message.AsCommand` with a nil parser: fail with `ErrNotACommand`
(wrapped with the text) unless the message is a command, then split on
single spaces into command and arguments. -/
def Message.AsCommandNil (m : Message) : Except GoError (String × List String) :=
  if !m.IsCommand then .error (.wrap m.text .notACommand)
  else
    match goSplitSpace m.text with
    | [] => .error (.wrap m.text .notACommand)
    | c :: args => .ok (c, args)

/-- Association-list lookup, mirroring a Go map read. -/
def alookup {β : Type} : List (String × β) → String → Option β
  | [], _ => none
  | (k, v) :: rest, key => if k == key then some v else alookup rest key

/-- Association-list insert, mirroring a Go map write (overwrite). -/
def ainsert {β : Type} : List (String × β) → String → β → List (String × β)
  | [], k, v => [(k, v)]
  | (k0, v0) :: rest, k, v =>
      if k0 == k then (k, v) :: rest else (k0, v0) :: ainsert rest k v

/-- Association-list lookup keyed by user id (Go `map[uint64]`). -/
def ulookup {β : Type} : List (Nat × β) → Nat → Option β
  | [], _ => none
  | (k, v) :: rest, key => if k == key then some v else ulookup rest key

/-- Association-list insert keyed by user id (Go `map[uint64]`). -/
def uinsert {β : Type} : List (Nat × β) → Nat → β → List (Nat × β)
  | [], k, v => [(k, v)]
  | (k0, v0) :: rest, k, v =>
      if k0 == k then (k, v) :: rest else (k0, v0) :: uinsert rest k v

/-- Association-list delete keyed by user id (Go `delete`). -/
def uerase {β : Type} (l : List (Nat × β)) (k : Nat) : List (Nat × β) :=
  l.filter (fun kv => !(kv.1 == k))

/-- The behaviour of an `im.Flow` (dynamic interface value): `Start` and
`HandleMessage`, each mapping the inbound message and the flow's internal
state to the new state, the replies sent through the messenger, and the
returned error.  The state type `σ` is a parameter so the scheduler
theorems quantify over arbitrary flows. -/
structure FlowB (σ : Type) where
  start : Message → σ → σ × List Message × Option GoError
  handle : Message → σ → σ × List Message × Option GoError

/-- `im.FlowScheduler`: registry of flows by name, command entry-point
map, and the current-flow name. -/
structure FlowScheduler (σ : Type) where
  flows : List (String × FlowB σ)
  flowCommandEntryPoints : List (String × String)
  currentFlow : String

/-- `im.NewScheduler`: empty registries, no current flow. -/
def NewScheduler (σ : Type) : FlowScheduler σ :=
  { flows := [], flowCommandEntryPoints := [], currentFlow := "" }

/-- The command-binding loop inside `RegisterFlow`: walk the commands in
order; on the first already-bound command stop with a trigger-conflict
error, keeping the bindings made so far (exactly what the Go loop does). -/
def registerCommands (name : String) :
    List String → List (String × String) → List (String × String) × Option GoError
  | [], eps => (eps, none)
  | c :: rest, eps =>
    match alookup eps c with
    | some _ => (eps, some (.wrap c .flowTriggerConflict))
    | none => registerCommands name rest (ainsert eps c name)

/-- `FlowScheduler.RegisterFlow`: fail with `ErrFlowAlreadyRegistered` if
the name exists; otherwise bind each command, failing with
`ErrFlowTriggerConflict` on a bound one; on success record the flow. -/
def FlowScheduler.RegisterFlow {σ : Type} (fs : FlowScheduler σ) (f : FlowB σ)
    (name : String) (commands : List String) : FlowScheduler σ × Option GoError :=
  match alookup fs.flows name with
  | some _ => (fs, some (.wrap name .flowAlreadyRegistered))
  | none =>
    match registerCommands name commands fs.flowCommandEntryPoints with
    | (eps, some e) => ({ fs with flowCommandEntryPoints := eps }, some e)
    | (eps, none) =>
        ({ fs with flowCommandEntryPoints := eps, flows := ainsert fs.flows name f }, none)

/-- Outcome of a scheduler `HandleMessage` call: a normal return carrying
the returned error, or a Go runtime panic (calling a method on the nil
interface a map read returns for a missing flow name). -/
inductive HMOutcome where
  | ok (err : Option GoError)
  | panicked
deriving DecidableEq, Repr

/-- `FlowScheduler.HandleMessage`: forward to the active flow if one is
set, clearing it when the call fails with the terminal sentinel and
wrapping any other error; otherwise ignore non-commands, parse the
command, and on a registered entry command set it active and call its
`Start`.  Returns the updated scheduler, flow state, sent replies, and
outcome. -/
def FlowScheduler.HandleMessage {σ : Type} (fs : FlowScheduler σ) (st : σ)
    (m : Message) : FlowScheduler σ × σ × List Message × HMOutcome :=
  if fs.currentFlow != "" then
    match alookup fs.flows fs.currentFlow with
    | none => (fs, st, [], .panicked)
    | some f =>
      let r := f.handle m st
      match r.2.2 with
      | none => (fs, r.1, r.2.1, .ok none)
      | some err =>
        if errorsIs err .flowFinished then
          ({ fs with currentFlow := "" }, r.1, r.2.1, .ok none)
        else
          (fs, r.1, r.2.1, .ok (some (.wrap "handling message" err)))
  else if !m.IsCommand then
    (fs, st, [], .ok none)
  else
    match m.AsCommandNil with
    | .error e =>
      if errorsIs e .notACommand then (fs, st, [], .ok none)
      else (fs, st, [], .ok (some (.wrap "parsing message" e)))
    | .ok (command, _) =>
      match alookup fs.flowCommandEntryPoints command with
      | some flowName =>
        let fs' := { fs with currentFlow := flowName }
        match alookup fs'.flows flowName with
        | none => (fs', st, [], .panicked)
        | some f =>
          let r := f.start m st
          (fs', r.1, r.2.1, .ok r.2.2)
      | none => (fs, st, [], .ok none)

/-- An event in a scheduler history: a registration attempt (succeeding
or not) or an inbound message. -/
inductive SchedEvent (σ : Type) where
  | register (f : FlowB σ) (name : String) (commands : List String)
  | msg (m : Message)

/-- One step of a scheduler history (registration results and message
outcomes are discarded; only the state evolution matters). -/
def schedStep {σ : Type} (s : FlowScheduler σ × σ) : SchedEvent σ → FlowScheduler σ × σ
  | .register f n cs => ((s.1.RegisterFlow f n cs).1, s.2)
  | .msg m =>
    let r := s.1.HandleMessage s.2 m
    (r.1, r.2.1)

/-- Run a scheduler history from `NewScheduler` and an initial flow state. -/
def schedRun {σ : Type} (st0 : σ) (evs : List (SchedEvent σ)) : FlowScheduler σ × σ :=
  evs.foldl schedStep (NewScheduler σ, st0)

/-- The claimed invariant: the current flow name is empty or registered. -/
def currentFlowValid {σ : Type} (fs : FlowScheduler σ) : Bool :=
  fs.currentFlow == "" || (alookup fs.flows fs.currentFlow).isSome

/-- `blogging.BlogImage`: raw bytes plus alt text. -/
structure BlogImage where
  data : List Nat
  altText : String
deriving DecidableEq, Repr

/-- `blogging.NewBlogImage`. -/
def NewBlogImage (data : List Nat) (altText : String) : BlogImage :=
  { data := data, altText := altText }

/-- `blogging.MicroblogPost`: accumulated text and images of a draft. -/
structure MicroblogPost where
  text : String
  images : List BlogImage
deriving DecidableEq, Repr

/-- `MicroblogPost.AddImage`: append one image. -/
def MicroblogPost.AddImage (p : MicroblogPost) (i : BlogImage) : MicroblogPost :=
  { p with images := p.images ++ [i] }

/-- The draft map of a `PostingFlow` (`map[uint64]*MicroblogPost`). -/
def Posts : Type := List (Nat × MicroblogPost)

/-- A messenger's `SendMessage` behaviour: the error it returns for each
outbound message (`none` = success). -/
def Msgr : Type := Message → Option GoError

/-- A platform's `Post` behaviour at this call: the canonical URL or the
error, as a function of the posted draft. -/
def PlatformB : Type := MicroblogPost → Except GoError String

/-- Wrap a messenger error the way every posting handler does with
`fmt.Errorf("<label>: %w", err)`, passing a success through. -/
def wrapOpt (label : String) : Option GoError → Option GoError
  | none => none
  | some e => some (.wrap label e)

/-- `PostingFlow.defaultHandler`: ignore empty messages; with no draft,
reply that one must be started; otherwise append the text
(newline-joined) and the images to the draft, then confirm. -/
def defaultHandler (msgr : Msgr) (m : Message) (posts : Posts) :
    Posts × List Message × Option GoError :=
  if m.IsEmpty then (posts, [], none)
  else
    match ulookup posts m.userID with
    | none =>
      let r := m.Reply "No active post. Use /new to start writing a new post." []
      (posts, [r], wrapOpt "messenger, sending no active post message" (msgr r))
    | some post =>
      let post1 :=
        if m.text != "" then
          { post with text := (if post.text.length != 0 then post.text ++ "\n" else post.text) ++ m.text }
        else post
      let post2 := m.images.foldl (fun p img => p.AddImage (NewBlogImage img.data img.caption)) post1
      let added := (m.text != "") || !m.images.isEmpty
      let posts' := uinsert posts m.userID post2
      let r := m.Reply (if added then "Content added to your post"
                        else "Received message, but no content was added.") []
      (posts', [r], wrapOpt "responding after content add" (msgr r))

/-- `PostingFlow.newCommandHandler`: with an existing draft, only notify;
otherwise create an empty draft and send instructions. -/
def newCommandHandler (msgr : Msgr) (m : Message) (posts : Posts) :
    Posts × List Message × Option GoError :=
  match ulookup posts m.userID with
  | some _ =>
    let r := m.Reply "You already have an active post. Use /send to post it or /cancel to discard it." []
    (posts, [r], wrapOpt "messenger send message err" (msgr r))
  | none =>
    let posts' := uinsert posts m.userID { text := "", images := [] }
    let r := m.Reply "Started a new post. Now send text or images to add content. Use /send when ready or /cancel to discard." []
    (posts', [r], wrapOpt "messenger send message err" (msgr r))

/-- `PostingFlow.cancelCommandHandler`: drop the draft if present and
reply accordingly. -/
def cancelCommandHandler (msgr : Msgr) (m : Message) (posts : Posts) :
    Posts × List Message × Option GoError :=
  let exists0 := (ulookup posts m.userID).isSome
  let posts' := if exists0 then uerase posts m.userID else posts
  let r := m.Reply (if exists0 then "Post canceled." else "No active post to cancel.") []
  (posts', [r], wrapOpt "messenger send message err" (msgr r))

/-- The per-platform delivery loop inside `sendCommandHandler`: for each
platform attempt `Post`; on a publish failure reply with the failure
(collecting the messenger error, if any, into the aggregated list) and
continue; on success reply with the URL (a messenger error here is only
logged).  Returns the replies, the names of the platforms attempted (in
order), and the aggregated messenger errors. -/
def sendLoop (msgr : Msgr) (m : Message) (post : MicroblogPost) :
    List (String × PlatformB) → List Message × List String × List GoError
  | [] => ([], [], [])
  | (pname, postFn) :: rest =>
    let prev := sendLoop msgr m post rest
    match postFn post with
    | .error e =>
      let r := m.Reply ("Post Not sent to " ++ pname ++ ": " ++ goErrorMsg e) []
      match msgr r with
      | some terr => (r :: prev.1, pname :: prev.2.1, terr :: prev.2.2)
      | none => (r :: prev.1, pname :: prev.2.1, prev.2.2)
    | .ok url =>
      let r := m.Reply ("Post sent to " ++ pname ++ " (" ++ url ++ ") : <nil>") []
      (r :: prev.1, pname :: prev.2.1, prev.2.2)

/-- `PostingFlow.sendCommandHandler`: remove the draft (before any
delivery attempt); with none, only notify; otherwise run the delivery
loop over all platforms and return a combined error exactly when
messenger errors were aggregated. -/
def sendCommandHandler (platforms : List (String × PlatformB)) (msgr : Msgr)
    (m : Message) (posts : Posts) :
    Posts × List Message × List String × Option GoError :=
  match ulookup posts m.userID with
  | none =>
    let r := m.Reply "No active post to send. Use /new to start a post." []
    (posts, [r], [], wrapOpt "messenger send message err" (msgr r))
  | some post =>
    let posts' := uerase posts m.userID
    let r := sendLoop msgr m post platforms
    (posts', r.1, r.2.1,
      if r.2.2.isEmpty then none
      else some (.custom ("posting errors: " ++ goJoinMsg r.2.2)))

/-- `PostingFlow.HandleMessage`: for a non-command, run the default
handler but discard its result and return the `AsCommand` parse error
wrapped; for a command, dispatch `/new`, `/send`, `/cancel`, anything
else to the default handler.  The third component is the list of
platforms on which a `Post` was attempted (non-empty only on `/send`). -/
def PostingFlow.HandleMessage (platforms : List (String × PlatformB)) (msgr : Msgr)
    (m : Message) (posts : Posts) :
    Posts × List Message × List String × Option GoError :=
  if !m.IsCommand then
    let d := defaultHandler msgr m posts
    (d.1, d.2.1, [], some (.wrap "parsing message" (.wrap m.text .notACommand)))
  else
    match goSplitSpace m.text with
    | [] => (posts, [], [], some (.wrap "parsing message" .notACommand))
    | c :: _ =>
      if c == "/new" then
        let d := newCommandHandler msgr m posts
        (d.1, d.2.1, [], d.2.2)
      else if c == "/send" then
        sendCommandHandler platforms msgr m posts
      else if c == "/cancel" then
        let d := cancelCommandHandler msgr m posts
        (d.1, d.2.1, [], d.2.2)
      else
        let d := defaultHandler msgr m posts
        (d.1, d.2.1, [], d.2.2)

/-- `PostingFlow.Start` simply delegates to `HandleMessage`. -/
def PostingFlow.Start (platforms : List (String × PlatformB)) (msgr : Msgr)
    (m : Message) (posts : Posts) :
    Posts × List Message × List String × Option GoError :=
  PostingFlow.HandleMessage platforms msgr m posts

/-- The posting flow packaged as a scheduler flow over the draft map. -/
def postingFlowB (platforms : List (String × PlatformB)) (msgr : Msgr) : FlowB Posts :=
  { start := fun m posts =>
      let r := PostingFlow.Start platforms msgr m posts
      (r.1, r.2.1, r.2.2.2),
    handle := fun m posts =>
      let r := PostingFlow.HandleMessage platforms msgr m posts
      (r.1, r.2.1, r.2.2.2) }

/-- A messenger whose `SendMessage` always succeeds. -/
def msgrOk : Msgr := fun _ => none

/-- Resolution of the `select` around the channel send in
`AuthorizerFlow.HandleMessage`: either the background task accepted the
answer, or the governing context was canceled first. -/
inductive ChanSend where
  | sent
  | canceled
deriving DecidableEq, Repr

/-- Resolution of the `select` around the channel receive: the channel
yielded a prompt string, the channel was closed, or the governing context
was canceled first. -/
inductive ChanRecv where
  | msg (s : String)
  | closed
  | canceled
deriving DecidableEq, Repr

/-- The receive step of `AuthorizerFlow.HandleMessage`: a yielded string
is forwarded verbatim as a reply (a messenger failure is wrapped and
returned); a closed channel returns the terminal sentinel with no reply;
cancellation returns silently. -/
def authRecvStep (msgr : Msgr) (m : Message) : ChanRecv → List Message × Option GoError
  | .closed => ([], some .flowFinished)
  | .canceled => ([], none)
  | .msg s =>
    let r := m.Reply s []
    match msgr r with
    | some e => ([r], some (.wrap "sending message" e))
    | none => ([r], none)

/-- `AuthorizerFlow.HandleMessage` (package `blogging`): fail if no
authorization channel is retained; if the message is a non-command with
content, send its text into the channel (aborting silently on context
cancellation); then perform the receive step.  The two `select`
resolutions are explicit parameters. -/
def AuthorizerFlow.HandleMessage (chanNil : Bool) (msgr : Msgr) (m : Message)
    (sendRes : ChanSend) (recvRes : ChanRecv) : List Message × Option GoError :=
  if chanNil then ([], some (.custom "no authorization channel"))
  else if !m.IsCommand && !m.IsEmpty then
    match sendRes with
    | .canceled => ([], none)
    | .sent => authRecvStep msgr m recvRes
  else authRecvStep msgr m recvRes

/-! ## Shared lemmas and concrete fixtures -/

/-- Looking up a key just erased yields nothing. -/
theorem ulookup_uerase {β : Type} (l : List (Nat × β)) (k : Nat) :
    ulookup (uerase l k) k = none := by
  induction l with
  | nil => rfl
  | cons hd tl ih =>
    by_cases h : hd.1 = k
    · simp [uerase, ulookup, h] at ih ⊢
      simpa [uerase] using ih
    · simp [uerase, ulookup, h] at ih ⊢
      simpa [uerase, ulookup, h] using ih

/-- Looking up a key just inserted yields the inserted value. -/
theorem ulookup_uinsert {β : Type} (l : List (Nat × β)) (k : Nat) (v : β) :
    ulookup (uinsert l k v) k = some v := by
  induction l with
  | nil => simp [uinsert, ulookup]
  | cons hd tl ih =>
    by_cases h : hd.1 = k
    · simp [uinsert, ulookup, h]
    · simp [uinsert, ulookup, h, ih]

/-- A concrete inbound text message for witnesses. -/
def mkTextMsg (uid : Nat) (t : String) : Message :=
  { im := "telegram", chatID := 9, userID := uid, msgID := 7, inReplyTo := 0,
    text := t, images := [] }

/-- A flow whose `HandleMessage` always reports the terminal sentinel. -/
def flowFinFB : FlowB Unit :=
  { start := fun _ s => (s, [], none),
    handle := fun _ s => (s, [], some .flowFinished) }

/-- A flow that does nothing and never errs. -/
def trivFB : FlowB Unit :=
  { start := fun _ s => (s, [], none),
    handle := fun _ s => (s, [], none) }

/-- A scheduler whose active flow always finishes. -/
def fsC1 : FlowScheduler Unit :=
  { flows := [("A", flowFinFB)], flowCommandEntryPoints := [("/x", "A")],
    currentFlow := "A" }

/-! ## C1: scheduler error handling around the active flow -/

/-- C1: with an active flow, when the flow's `HandleMessage` returns an
error matching `ErrFlowFinished` the scheduler clears the current flow
and returns nil; on any other non-nil error it returns the error wrapped
and leaves the current flow unchanged. -/
theorem C1_scheduler_terminal_sentinel {σ : Type} (fs : FlowScheduler σ)
    (st st' : σ) (m : Message) (f : FlowB σ) (sends : List Message) (e : GoError)
    (hcur : fs.currentFlow ≠ "")
    (hf : alookup fs.flows fs.currentFlow = some f)
    (hres : f.handle m st = (st', sends, some e)) :
    (errorsIs e .flowFinished = true →
      fs.HandleMessage st m = ({ fs with currentFlow := "" }, st', sends, .ok none)) ∧
    (errorsIs e .flowFinished = false →
      fs.HandleMessage st m = (fs, st', sends, .ok (some (.wrap "handling message" e)))) := by
  constructor <;> intro hE <;>
    simp [FlowScheduler.HandleMessage, bne_iff_ne, hcur, hf, hres, hE]

/-- C1 witness: a concrete scheduler whose active flow finishes; the
current flow is cleared and no error surfaces. -/
theorem C1_witness :
    FlowScheduler.HandleMessage fsC1 () (mkTextMsg 1 "hi")
      = ({ fsC1 with currentFlow := "" }, (), [], .ok none) :=
  (C1_scheduler_terminal_sentinel fsC1 () () (mkTextMsg 1 "hi") flowFinFB []
    .flowFinished (by decide) rfl rfl).1 rfl

/-! ## C2: registration is claimed all-or-nothing -/

/-- C2: the code contradicts the all-or-nothing claim.  After registering
flow `A` on `/x`, registering flow `B` on `["/y", "/x"]` fails with the
trigger-conflict error, yet leaves `/y` bound to `B` in the
command-to-flow map: the failed call mutated the registry. -/
theorem C2_nonatomic_reg_eval :
    ((((NewScheduler Unit).RegisterFlow trivFB "A" ["/x"]).1.RegisterFlow
        trivFB "B" ["/y", "/x"]).2
      = some (.wrap "/x" .flowTriggerConflict)) ∧
    ((((NewScheduler Unit).RegisterFlow trivFB "A" ["/x"]).1.RegisterFlow
        trivFB "B" ["/y", "/x"]).1.flowCommandEntryPoints
      = [("/x", "A"), ("/y", "B")]) ∧
    (((NewScheduler Unit).RegisterFlow trivFB "A" ["/x"]).1.flowCommandEntryPoints
      = [("/x", "A")]) := by
  refine ⟨rfl, rfl, rfl⟩

/-! ## C3: the current-flow-registered invariant -/

/-- C3: the invariant "current flow name is empty or registered" fails on
a reachable state.  A single registration `RegisterFlow(f, "A", ["/x",
"/x"])` fails with a trigger conflict but leaves `/x` bound to `"A"`
while `"A"` is absent from the flows registry; the message `/x` then sets
the current flow to `"A"`, which is not registered (and the Go code then
panics calling a method on the nil interface). -/
theorem C3_invariant_violation_eval :
    ((schedRun () [SchedEvent.register trivFB "A" ["/x", "/x"],
        SchedEvent.msg (mkTextMsg 1 "/x")]).1.currentFlow = "A") ∧
    ((alookup (schedRun () [SchedEvent.register trivFB "A" ["/x", "/x"],
        SchedEvent.msg (mkTextMsg 1 "/x")]).1.flows "A").isSome = false) ∧
    (currentFlowValid (schedRun () [SchedEvent.register trivFB "A" ["/x", "/x"],
        SchedEvent.msg (mkTextMsg 1 "/x")]).1 = false) := by
  refine ⟨?_, ?_, ?_⟩ <;> decide

/-! ## C10: the posting flow is never retired -/

/-- With an always-succeeding messenger, handler errors cannot occur. -/
theorem wrapOpt_msgrOk (label : String) (r : Message) :
    wrapOpt label (msgrOk r) = none := rfl

/-- With an always-succeeding messenger, the delivery loop aggregates no
messenger errors. -/
theorem sendLoop_msgrOk_errs (m : Message) (post : MicroblogPost) :
    ∀ platforms : List (String × PlatformB),
      (sendLoop msgrOk m post platforms).2.2 = []
  | [] => rfl
  | (pname, postFn) :: rest => by
    have ih := sendLoop_msgrOk_errs m post rest
    simp only [sendLoop]
    cases h : postFn post <;> simp [h, msgrOk, ih]

/-- With an always-succeeding messenger, the default handler errs never. -/
theorem defaultHandler_msgrOk_err (m : Message) (posts : Posts) :
    (defaultHandler msgrOk m posts).2.2 = none := by
  unfold defaultHandler
  split
  · rfl
  · cases h : ulookup posts m.userID <;> simp [h, wrapOpt, msgrOk]

/-- With an always-succeeding messenger, `/new` errs never. -/
theorem newCommandHandler_msgrOk_err (m : Message) (posts : Posts) :
    (newCommandHandler msgrOk m posts).2.2 = none := by
  unfold newCommandHandler
  cases h : ulookup posts m.userID <;> simp [h, wrapOpt, msgrOk]

/-- With an always-succeeding messenger, `/cancel` errs never. -/
theorem cancelCommandHandler_msgrOk_err (m : Message) (posts : Posts) :
    (cancelCommandHandler msgrOk m posts).2.2 = none := by
  unfold cancelCommandHandler
  simp [wrapOpt, msgrOk]

/-- With an always-succeeding messenger, `/send` errs never. -/
theorem sendCommandHandler_msgrOk_err (platforms : List (String × PlatformB))
    (m : Message) (posts : Posts) :
    (sendCommandHandler platforms msgrOk m posts).2.2.2 = none := by
  unfold sendCommandHandler
  cases h : ulookup posts m.userID with
  | none => simp [h, wrapOpt, msgrOk]
  | some post => simp [h, sendLoop_msgrOk_errs]

/-- With an always-succeeding messenger, the only error
`PostingFlow.HandleMessage` ever returns is the non-command parse error. -/
theorem posting_handle_msgrOk_err (platforms : List (String × PlatformB))
    (m : Message) (posts : Posts) :
    (PostingFlow.HandleMessage platforms msgrOk m posts).2.2.2 = none ∨
    (PostingFlow.HandleMessage platforms msgrOk m posts).2.2.2
      = some (.wrap "parsing message" (.wrap m.text .notACommand)) := by
  unfold PostingFlow.HandleMessage
  split
  · right; rfl
  · cases hs : goSplitSpace m.text with
    | nil => exact absurd hs (goSplitSpace_ne_nil m.text)
    | cons c rest =>
      simp only [hs]
      by_cases h1 : c == "/new"
      · left; simp [h1, newCommandHandler_msgrOk_err]
      · by_cases h2 : c == "/send"
        · left; simp [h1, h2, sendCommandHandler_msgrOk_err]
        · by_cases h3 : c == "/cancel"
          · left; simp [h1, h2, h3, cancelCommandHandler_msgrOk_err]
          · left; simp [h1, h2, h3, defaultHandler_msgrOk_err]

/-- The parse error never matches the terminal sentinel. -/
theorem errorsIs_parse_not_finished (t : String) :
    errorsIs (.wrap "parsing message" (.wrap t .notACommand)) .flowFinished = false := rfl

/-- A scheduler in which the posting flow is the registered and active
flow, as `main.go` wires it (`"microblog_post"` triggered by `/new`),
with an always-succeeding messenger. -/
def fsPosting (platforms : List (String × PlatformB)) : FlowScheduler Posts :=
  { flows := [("microblog_post", postingFlowB platforms msgrOk)],
    flowCommandEntryPoints := [("/new", "microblog_post")],
    currentFlow := "microblog_post" }

/-- One message step never changes the scheduler component of the
posting system: the posting flow never reports the terminal sentinel. -/
theorem fsPosting_step (platforms : List (String × PlatformB)) (posts : Posts)
    (m : Message) :
    (schedStep (fsPosting platforms, posts) (SchedEvent.msg m)).1
      = fsPosting platforms := by
  simp only [schedStep, FlowScheduler.HandleMessage]
  have hlook : alookup (fsPosting platforms).flows (fsPosting platforms).currentFlow
      = some (postingFlowB platforms msgrOk) := rfl
  rcases posting_handle_msgrOk_err platforms m posts with h | h <;>
    simp [fsPosting, postingFlowB, h, errorsIs_parse_not_finished, alookup]

/-- C10: with an always-succeeding messenger, neither
`PostingFlow.Start` nor `PostingFlow.HandleMessage` ever returns an
error matching `ErrFlowFinished`, and a scheduler whose current flow is
the posting flow never returns to the idle state on any message
sequence. -/
theorem C10_posting_never_retired (platforms : List (String × PlatformB)) :
    (∀ (m : Message) (posts : Posts) (e : GoError),
      (PostingFlow.HandleMessage platforms msgrOk m posts).2.2.2 = some e →
        errorsIs e .flowFinished = false) ∧
    (∀ (m : Message) (posts : Posts) (e : GoError),
      (PostingFlow.Start platforms msgrOk m posts).2.2.2 = some e →
        errorsIs e .flowFinished = false) ∧
    (∀ (posts : Posts) (ms : List Message),
      ((ms.map SchedEvent.msg).foldl schedStep (fsPosting platforms, posts)).1.currentFlow
        = "microblog_post") := by
  have h1 : ∀ (m : Message) (posts : Posts) (e : GoError),
      (PostingFlow.HandleMessage platforms msgrOk m posts).2.2.2 = some e →
        errorsIs e .flowFinished = false := by
    intro m posts e he
    rcases posting_handle_msgrOk_err platforms m posts with h | h
    · rw [h] at he; cases he
    · rw [h] at he
      cases he
      exact errorsIs_parse_not_finished m.text
  refine ⟨h1, h1, ?_⟩
  intro posts ms
  suffices h : ∀ s : FlowScheduler Posts × Posts, s.1 = fsPosting platforms →
      ((ms.map SchedEvent.msg).foldl schedStep s).1.currentFlow = "microblog_post" by
    exact h (fsPosting platforms, posts) rfl
  induction ms with
  | nil =>
    intro s hs
    simpa using congrArg FlowScheduler.currentFlow hs
  | cons m rest ih =>
    rintro ⟨fs1, st1⟩ hs
    simp only at hs
    subst hs
    simp only [List.map, List.foldl]
    exact ih _ (fsPosting_step platforms st1 m)

/-- C10 witness: a concrete non-command message yields the parse error,
which does not match the sentinel, and a one-message run keeps the
posting flow active. -/
theorem C10_witness :
    errorsIs (.wrap "parsing message" (.wrap "hello" .notACommand)) .flowFinished = false ∧
    (([mkTextMsg 1 "hello"].map SchedEvent.msg).foldl schedStep
        (fsPosting [], [])).1.currentFlow = "microblog_post" :=
  ⟨(C10_posting_never_retired []).1 (mkTextMsg 1 "hello") []
      (.wrap "parsing message" (.wrap "hello" .notACommand)) rfl,
   (C10_posting_never_retired []).2.2 [] [mkTextMsg 1 "hello"]⟩

/-! ## C4 and C9: the authorizer handshake -/

/-- A messenger whose `SendMessage` always fails. -/
def msgrBoom : Msgr := fun _ => some (.custom "boom")

/-- C4 counterexample: the claim says a string yielded by the channel
results in a nil return; with a failing messenger the reply is still
attempted but the call returns the wrapped send error, not nil.  The
input is the `/mastodon_auth` entry command (so the send step is
skipped) and the channel yielding `"hi"`. -/
theorem C4_counterexample :
    (AuthorizerFlow.HandleMessage false msgrBoom (mkTextMsg 1 "/mastodon_auth")
        .sent (.msg "hi")).2
      = some (.wrap "sending message" (.custom "boom")) ∧
    (AuthorizerFlow.HandleMessage false msgrBoom (mkTextMsg 1 "/mastodon_auth")
        .sent (.msg "hi")).2 ≠ none ∧
    (AuthorizerFlow.HandleMessage false msgrBoom (mkTextMsg 1 "/mastodon_auth")
        .sent (.msg "hi")).1
      = [(mkTextMsg 1 "/mastodon_auth").Reply "hi" []] := by
  refine ⟨rfl, by decide, rfl⟩

/-- C4 (amended): at the receive step (reached, so the send — if the
message required one — was accepted), a string yielded by the channel is
forwarded verbatim as a `Reply` to the inbound message, and the call
returns nil exactly when the messenger send succeeds, else the send
error wrapped; a closed channel returns `ErrFlowFinished` with no reply. -/
theorem C4_authorizer_receive_step (msgr : Msgr) (m : Message) (s : String)
    (sendRes : ChanSend) (hsent : sendRes = .sent) :
    (AuthorizerFlow.HandleMessage false msgr m sendRes (.msg s)
      = ([m.Reply s []], wrapOpt "sending message" (msgr (m.Reply s [])))) ∧
    (AuthorizerFlow.HandleMessage false msgr m sendRes .closed
      = ([], some .flowFinished)) := by
  subst hsent
  constructor <;>
    · unfold AuthorizerFlow.HandleMessage authRecvStep
      split
      · simp at *
      · split <;> first
          | rfl
          | (cases h : msgr (m.Reply s []) <;> simp [h, wrapOpt])

/-- C4 witness: with a succeeding messenger, the prompt `"hi"` is
forwarded and the call returns nil; a closed channel finishes the flow. -/
theorem C4_witness :
    (AuthorizerFlow.HandleMessage false msgrOk (mkTextMsg 1 "/mastodon_auth")
        .sent (.msg "hi")
      = ([(mkTextMsg 1 "/mastodon_auth").Reply "hi" []], none)) ∧
    (AuthorizerFlow.HandleMessage false msgrOk (mkTextMsg 1 "/mastodon_auth")
        .sent .closed
      = ([], some .flowFinished)) :=
  ⟨(C4_authorizer_receive_step msgrOk (mkTextMsg 1 "/mastodon_auth") "hi" .sent rfl).1,
   (C4_authorizer_receive_step msgrOk (mkTextMsg 1 "/mastodon_auth") "hi" .sent rfl).2⟩

/-- C9: if the governing context is canceled while the call is blocked
sending the user's answer into the channel (the message is a non-command
with content) or blocked receiving the next prompt, the call returns nil
and no reply is sent. -/
theorem C9_cancellation_silent (msgr : Msgr) (m : Message) :
    (m.IsCommand = false → m.IsEmpty = false → ∀ recvRes : ChanRecv,
      AuthorizerFlow.HandleMessage false msgr m .canceled recvRes = ([], none)) ∧
    (∀ sendRes : ChanSend,
      AuthorizerFlow.HandleMessage false msgr m sendRes .canceled = ([], none)) := by
  constructor
  · intro hc he recvRes
    simp [AuthorizerFlow.HandleMessage, hc, he]
  · intro sendRes
    unfold AuthorizerFlow.HandleMessage authRecvStep
    split
    · simp at *
    · split
      · cases sendRes <;> rfl
      · rfl

/-- C9 witness: canceling while sending the answer `"srv"` and canceling
while receiving both return nil with no reply. -/
theorem C9_witness :
    (AuthorizerFlow.HandleMessage false msgrOk (mkTextMsg 1 "srv")
        .canceled (.msg "ignored") = ([], none)) ∧
    (AuthorizerFlow.HandleMessage false msgrOk (mkTextMsg 1 "srv")
        .sent .canceled = ([], none)) :=
  ⟨(C9_cancellation_silent msgrOk (mkTextMsg 1 "srv")).1 rfl rfl (.msg "ignored"),
   (C9_cancellation_silent msgrOk (mkTextMsg 1 "srv")).2 .sent⟩

/-! ## C5 and C6: the /send handler -/

/-- The delivery loop attempts `Post` on every platform, in order,
whatever the publish and messenger outcomes. -/
theorem sendLoop_names (msgr : Msgr) (m : Message) (post : MicroblogPost) :
    ∀ platforms : List (String × PlatformB),
      (sendLoop msgr m post platforms).2.1 = platforms.map Prod.fst
  | [] => rfl
  | (pname, postFn) :: rest => by
    have ih := sendLoop_names msgr m post rest
    simp only [sendLoop]
    cases h : postFn post with
    | error e => cases hm : msgr (m.Reply ("Post Not sent to " ++ pname ++ ": " ++ goErrorMsg e) []) <;>
        simp [h, hm, ih]
    | ok url => simp [h, ih]

/-- The errors the delivery loop aggregates are exactly the messenger
failures on the publish-failure reports, in platform order. -/
theorem sendLoop_errs_spec (msgr : Msgr) (m : Message) (post : MicroblogPost) :
    ∀ platforms : List (String × PlatformB),
      (sendLoop msgr m post platforms).2.2
        = platforms.filterMap (fun pp =>
            match pp.2 post with
            | .error e => msgr (m.Reply ("Post Not sent to " ++ pp.1 ++ ": " ++ goErrorMsg e) [])
            | .ok _ => none)
  | [] => rfl
  | (pname, postFn) :: rest => by
    have ih := sendLoop_errs_spec msgr m post rest
    simp only [sendLoop, List.filterMap]
    cases h : postFn post with
    | error e => cases hm : msgr (m.Reply ("Post Not sent to " ++ pname ++ ": " ++ goErrorMsg e) []) <;>
        simp [h, hm, ih]
    | ok url => simp [h, ih]

/-- C5: `/send` with an existing draft removes the draft — the resulting
map is the erasure of the user's entry, independent of every platform and
messenger outcome — and afterwards no draft exists for that user. -/
theorem C5_send_removes_draft (platforms : List (String × PlatformB))
    (msgr : Msgr) (m : Message) (posts : Posts) (p : MicroblogPost)
    (h : ulookup posts m.userID = some p) :
    ((sendCommandHandler platforms msgr m posts).1 = uerase posts m.userID) ∧
    (ulookup (sendCommandHandler platforms msgr m posts).1 m.userID = none) ∧
    (∀ (platforms2 : List (String × PlatformB)) (msgr2 : Msgr),
      (sendCommandHandler platforms2 msgr2 m posts).1
        = (sendCommandHandler platforms msgr m posts).1) := by
  refine ⟨?_, ?_, ?_⟩
  · simp [sendCommandHandler, h]
  · simp [sendCommandHandler, h, ulookup_uerase]
  · intro platforms2 msgr2
    simp [sendCommandHandler, h]

/-- C5 witness: a concrete user-1 draft is removed by `/send` even with a
failing platform and a failing messenger. -/
theorem C5_witness :
    (sendCommandHandler [("mastodon", fun _ => .error (.custom "down"))]
        msgrBoom (mkTextMsg 1 "/send") [(1, { text := "hi", images := [] })]).1
      = [] ∧
    ulookup (sendCommandHandler [("mastodon", fun _ => .error (.custom "down"))]
        msgrBoom (mkTextMsg 1 "/send") [(1, { text := "hi", images := [] })]).1 1
      = none := by
  have h := C5_send_removes_draft [("mastodon", fun _ => .error (.custom "down"))]
    msgrBoom (mkTextMsg 1 "/send") [(1, { text := "hi", images := [] })]
    { text := "hi", images := [] } rfl
  exact ⟨h.1, h.2.1⟩

/-- C6 counterexample: one platform that publishes successfully and a
messenger that fails every send.  Exactly one messenger `SendMessage`
failure is incurred while reporting the per-platform result, yet the
handler returns nil — the returned error does not aggregate the
messenger failures incurred while reporting per-platform results. -/
theorem C6_counterexample :
    ((sendCommandHandler [("mastodon", fun _ => .ok "https://m/1")] msgrBoom
        (mkTextMsg 1 "/send") [(1, { text := "hi", images := [] })]).2.1.filter
          (fun r => (msgrBoom r).isSome)).length = 1 ∧
    (sendCommandHandler [("mastodon", fun _ => .ok "https://m/1")] msgrBoom
        (mkTextMsg 1 "/send") [(1, { text := "hi", images := [] })]).2.2.2 = none := by
  refine ⟨?_, ?_⟩ <;> decide

/-- C6 (amended): a publish failure never blocks the remaining platforms
(every platform's `Post` is attempted, in order), and the returned error
aggregates exactly the messenger failures incurred while reporting
publish *failures* — a messenger failure on a success report is only
logged, and publish failures themselves are never part of the returned
error, which is nil exactly when no failure-report send failed. -/
theorem C6_send_error_aggregation (platforms : List (String × PlatformB))
    (msgr : Msgr) (m : Message) (posts : Posts) (p : MicroblogPost)
    (h : ulookup posts m.userID = some p) :
    ((sendCommandHandler platforms msgr m posts).2.2.1 = platforms.map Prod.fst) ∧
    ((sendCommandHandler platforms msgr m posts).2.2.2
      = (let errs := platforms.filterMap (fun pp =>
            match pp.2 p with
            | .error e => msgr (m.Reply ("Post Not sent to " ++ pp.1 ++ ": " ++ goErrorMsg e) [])
            | .ok _ => none)
         if errs.isEmpty then none
         else some (.custom ("posting errors: " ++ goJoinMsg errs)))) := by
  constructor
  · simp [sendCommandHandler, h, sendLoop_names]
  · simp only [sendCommandHandler, h, sendLoop_errs_spec]

/-- C6 amended-claim witness: two platforms, the first failing to
publish, with a failing messenger: both platforms are attempted and the
returned error aggregates exactly the one failure-report send error. -/
theorem C6_witness :
    ((sendCommandHandler
        [("bsky", fun _ => .error (.custom "down")), ("mastodon", fun _ => .ok "https://m/1")]
        msgrBoom (mkTextMsg 1 "/send") [(1, { text := "hi", images := [] })]).2.2.1
      = ["bsky", "mastodon"]) ∧
    ((sendCommandHandler
        [("bsky", fun _ => .error (.custom "down")), ("mastodon", fun _ => .ok "https://m/1")]
        msgrBoom (mkTextMsg 1 "/send") [(1, { text := "hi", images := [] })]).2.2.2
      = some (.custom "posting errors: boom")) := by
  have h := C6_send_error_aggregation
    [("bsky", fun _ => .error (.custom "down")), ("mastodon", fun _ => .ok "https://m/1")]
    msgrBoom (mkTextMsg 1 "/send") [(1, { text := "hi", images := [] })]
    { text := "hi", images := [] } rfl
  exact ⟨h.1, h.2⟩

/-! ## C7: non-command handling in the posting flow -/

/-- C7: the code contradicts the claim that non-command messages are
handled by the default handler and return without error.  For the
non-command `"hello"` with an existing empty draft, the default handler
does run (the draft is updated and the confirmation reply sent), but
`HandleMessage` then falls through to `AsCommand`, whose parse failure
is returned as an error; and for an empty message no "nothing was added"
reply is sent (the default handler returns early), yet the same parse
error is returned. -/
theorem C7_noncommand_error_eval :
    (ulookup (PostingFlow.HandleMessage [] msgrOk (mkTextMsg 1 "hello")
        [(1, { text := "", images := [] })]).1 1
      = some { text := "hello", images := [] }) ∧
    ((PostingFlow.HandleMessage [] msgrOk (mkTextMsg 1 "hello")
        [(1, { text := "", images := [] })]).2.1
      = [(mkTextMsg 1 "hello").Reply "Content added to your post" []]) ∧
    ((PostingFlow.HandleMessage [] msgrOk (mkTextMsg 1 "hello")
        [(1, { text := "", images := [] })]).2.2.2
      = some (.wrap "parsing message" (.wrap "hello" .notACommand))) ∧
    ((PostingFlow.HandleMessage [] msgrOk (mkTextMsg 1 "")
        [(1, { text := "", images := [] })]).2.1 = []) ∧
    ((PostingFlow.HandleMessage [] msgrOk (mkTextMsg 1 "")
        [(1, { text := "", images := [] })]).2.2.2
      = some (.wrap "parsing message" (.wrap "" .notACommand))) := by
  refine ⟨?_, ?_, ?_, ?_, ?_⟩ <;> decide

/-! ## C8: newline-joined text accumulation -/

/-- The updated draft after the default handler appends pure text. -/
theorem defaultHandler_text_append (msgr : Msgr) (m : Message) (posts : Posts)
    (p : MicroblogPost) (newText : String) (hne : m.text ≠ "") (himg : m.images = [])
    (hp : ulookup posts m.userID = some p)
    (htext : (if p.text.length = 0 then p.text else p.text ++ "\n") ++ m.text = newText) :
    (defaultHandler msgr m posts).1 = uinsert posts m.userID { p with text := newText } := by
  have hc : m.IsEmpty = false := by
    simp [Message.IsEmpty, hne]
  simp only [defaultHandler, hc, Bool.false_eq_true, if_false, hp, himg]
  simp [hne, MicroblogPost.AddImage, NewBlogImage, htext]

/-- C8: starting from a draft with empty text, handling the non-command
message "a" and then "b" through the default handler leaves the draft
text `"a\nb"` (newline-joined, no leading newline), images untouched. -/
theorem C8_newline_join (msgr msgr2 : Msgr) (posts : Posts) (uid : Nat)
    (p : MicroblogPost) (mA mB : Message)
    (hp : ulookup posts uid = some p) (ht : p.text = "")
    (hA : mA.userID = uid) (hAt : mA.text = "a") (hAi : mA.images = [])
    (hB : mB.userID = uid) (hBt : mB.text = "b") (hBi : mB.images = []) :
    ulookup (defaultHandler msgr2 mB (defaultHandler msgr mA posts).1).1 uid
      = some { text := "a\nb", images := p.images } := by
  have h1 : (defaultHandler msgr mA posts).1
      = uinsert posts uid { p with text := "a" } := by
    have h := defaultHandler_text_append msgr mA posts p "a"
      (by rw [hAt]; decide) hAi (by rw [hA]; exact hp)
      (by rw [ht, hAt]; decide)
    rw [hA] at h
    exact h
  have h2 : ulookup (defaultHandler msgr mA posts).1 uid
      = some { p with text := "a" } := by
    rw [h1]; exact ulookup_uinsert posts uid _
  have h3 : (defaultHandler msgr2 mB (defaultHandler msgr mA posts).1).1
      = uinsert (defaultHandler msgr mA posts).1 uid { p with text := "a\nb" } := by
    have h := defaultHandler_text_append msgr2 mB (defaultHandler msgr mA posts).1
      { p with text := "a" } "a\nb" (by rw [hBt]; decide) hBi (by rw [hB]; exact h2)
      (by rw [hBt]
          show (if ("a".length = 0) then "a" else "a" ++ "\n") ++ "b" = "a\nb"
          decide)
    rw [hB] at h
    exact h
  rw [h3]
  exact ulookup_uinsert _ uid _

/-- C8 witness: concrete messages "a" then "b" on a fresh empty draft
yield draft text `"a\nb"`. -/
theorem C8_witness :
    ulookup (defaultHandler msgrOk (mkTextMsg 1 "b")
        (defaultHandler msgrOk (mkTextMsg 1 "a")
          [(1, { text := "", images := [] })]).1).1 1
      = some { text := "a\nb", images := [] } :=
  C8_newline_join msgrOk msgrOk [(1, { text := "", images := [] })] 1
    { text := "", images := [] } (mkTextMsg 1 "a") (mkTextMsg 1 "b")
    rfl rfl rfl rfl rfl rfl rfl rfl

end Chat2World
